import Mathlib

/-!
Shallow embedding of the nutrigene genetic-risk pipeline
(`src/models/genetic_risk/`): the data models, the validators, the risk
scoring engine (`risk_scoring.py`) and the recommendation engine
(`recommendation.py`), together with theorems settling the behavioural
claims about them.

Numeric modelling: the Python code computes with floats whose inputs are
finite decimals loaded from YAML; these are modelled as exact rationals
(`ℚ`) in the data structures, and the scoring arithmetic (which involves
`math.sqrt` and `math.erf`) is carried out in `ℝ`.  `round(x, n)` is
modelled as `(round (x * 10^n)) / 10^n` with the Mathlib `round`; this
rounds exact half-units up whereas Python rounds them to even, a
difference that is immaterial for every property below (no input used
here produces an exact tie).  Python exceptions are modelled with
`Except`; a Python function that may return `None` returns an `Option`.
-/

namespace NutriGene

/-! ### String helpers -/

/-- Non-overlapping occurrence count, scanning left to right, as in Python
`str.count`; the fuel argument (instantiated with the length of the
scanned list) only drives structural recursion. -/
def countOccAux (pat : List Char) : Nat → List Char → Nat
  | 0, _ => 0
  | _ + 1, [] => 0
  | fuel + 1, c :: cs =>
    if (c :: cs).take pat.length = pat then
      1 + countOccAux pat fuel (cs.drop (pat.length - 1))
    else
      countOccAux pat fuel cs

/-- Python `s.count(pat)`: number of non-overlapping occurrences of `pat`
in `s` (for empty `pat`, Python returns `len(s) + 1`). -/
def strCount (s pat : String) : Nat :=
  if pat.data = [] then s.data.length + 1 else countOccAux pat.data s.data.length s.data

/-- Reverse the characters of a string. -/
def strRev (s : String) : String := ⟨s.data.reverse⟩

/-! ### Decimal rounding -/

/-- Python `round(x, 4)` on the real model of a float. -/
noncomputable def round4 (x : ℝ) : ℝ := ((round (x * 10000) : ℤ) : ℝ) / 10000

/-- Python `round(x, 2)` on the real model of a float. -/
noncomputable def round2 (x : ℝ) : ℝ := ((round (x * 100) : ℤ) : ℝ) / 100

/-- Python `round(x, 1)` on an exact rational value. -/
def round1q (x : ℚ) : ℚ := ((round (x * 10) : ℤ) : ℚ) / 10

/-! ### Data models (`data_models.py`) -/

/-- Genotype zygosity classification (`Zygosity`). -/
inductive Zygosity where
  | homozygous_reference
  | heterozygous
  | homozygous_alternate
  | unknown
deriving DecidableEq

/-- Single SNP genotype observation (`SNPGenotype`).  The pydantic model
constrains `genotype` to two characters from ACGT and the alleles to
nonempty ACGT strings; those pattern constraints appear as hypotheses of
the theorems that need them. -/
structure SNPGenotype where
  rsid : String
  chromosome : String
  position : Nat
  reference_allele : String
  alternate_allele : String
  genotype : String
  zygosity : Zygosity
  quality_score : Option ℚ
deriving DecidableEq

/-- Complete genetic profile for an individual (`GeneticProfile`). -/
structure GeneticProfile where
  individual_id : String
  genotypes : List SNPGenotype
  population : String
  data_source : String
  collection_date : Option String
deriving DecidableEq

/-- `GeneticProfile.get_genotype_by_rsid`: first genotype with the given
rsID, if any. -/
def GeneticProfile.get_genotype_by_rsid (p : GeneticProfile) (rsid : String) :
    Option SNPGenotype :=
  p.genotypes.find? (fun g => g.rsid == rsid)

/-- Effect size with confidence interval (`EffectSize`). -/
structure EffectSize where
  value : ℚ
  ci_lower : ℚ
  ci_upper : ℚ
  unit : String
  population : String
deriving DecidableEq

/-- Gene-nutrient interaction knowledge entry (`GeneNutrientPair`). -/
structure GeneNutrientPair where
  gene : String
  variant_rsid : String
  nutrient : String
  risk_allele : String
  protective_allele : String
  effect_size : EffectSize
  allele_freq_east_asian : ℚ
  evidence_level : String
  pubmed_ids : List String
deriving DecidableEq

/-- Genetic risk score for a trait (`RiskScore`).  The score and
percentile live in `ℝ` because the scoring arithmetic uses square roots
and the error function. -/
structure RiskScore where
  trait : String
  score : ℝ
  percentile : ℝ
  risk_category : String
  contributing_variants : List String
  confidence : String

/-- Personalized dietary recommendation (`DietaryRecommendation`). -/
structure DietaryRecommendation where
  nutrient : String
  current_dri : ℚ
  recommended_intake : ℚ
  unit : String
  adjustment_reason : String
  food_sources : List String
  priority : String
  evidence_level : String
deriving DecidableEq

/-- Default `limitations` entries of a report. -/
def DEFAULT_LIMITATIONS : List String :=
  ["Genetic factors typically explain <5% of trait variance",
   "Recommendations based on population-level associations",
   "Not a substitute for clinical advice from a registered dietitian or physician",
   "Effect sizes may vary by age, sex, and environmental factors"]

/-- Default `disclaimer` of a report (quotation marks dropped). -/
def DEFAULT_DISCLAIMER : String :=
  "This report is for research and educational purposes only. " ++
  "Consult a registered dietitian or physician before " ++
  "making dietary changes based on genetic information."

/-- Complete genetic risk assessment report (`GeneticRiskReport`). -/
structure GeneticRiskReport where
  individual_id : String
  generated_date : String
  population : String
  risk_scores : List RiskScore
  recommendations : List DietaryRecommendation
  missing_variants : List String
  limitations : List String
  disclaimer : String

/-! ### Errors (`utils/exceptions.py`)

`RiskScoringError` and `RecommendationError` can both escape the
report-generation pipeline, so they are the two constructors of one
error type; `GeneticDataValidationError` is raised only by the validator
and keeps its own type. -/

/-- Error raised inside the scoring / recommendation pipeline. -/
inductive PipelineError where
  | riskScoring (msg : String)
  | recommendation (msg : String)
deriving DecidableEq

/-- `GeneticDataValidationError`. -/
structure GeneticDataValidationError where
  msg : String
deriving DecidableEq

/-- `True` exactly on a `RecommendationError` outcome. -/
def isRecError {α : Type} : Except PipelineError α → Bool
  | .error (.recommendation _) => true
  | _ => false

/-- `True` exactly on a `RiskScoringError` outcome. -/
def isRiskScoringError {α : Type} : Except PipelineError α → Bool
  | .error (.riskScoring _) => true
  | _ => false

/-- `True` exactly when the validator raised. -/
def isValidationError {α : Type} : Except GeneticDataValidationError α → Bool
  | .error _ => true
  | _ => false

/-! ### Validators (`validators.py`) -/

/-- `GeneticDataValidator.validate_genotype_consistency`: the observed
genotype must be one of the four ordered concatenations of the reference
and alternate alleles, else `GeneticDataValidationError` is raised. -/
def validate_genotype_consistency (g : SNPGenotype) :
    Except GeneticDataValidationError Bool :=
  let ref := g.reference_allele
  let alt := g.alternate_allele
  let obs := g.genotype
  if obs = ref ++ ref ∨ obs = ref ++ alt ∨ obs = alt ++ ref ∨ obs = alt ++ alt then
    .ok true
  else
    .error ⟨"Genotype " ++ obs ++ " inconsistent with ref=" ++ ref ++
      ", alt=" ++ alt ++ " for " ++ g.rsid⟩

/-- `GeneticDataValidator.get_missing_rsids`. -/
def get_missing_rsids (profile : GeneticProfile) (required : List String) :
    List String :=
  required.filter (fun rsid => !((profile.genotypes.map SNPGenotype.rsid).contains rsid))

/-! ### Knowledge base (`knowledge_base.py`)

Loading from YAML is outside the core; the provider is modelled as the
already-loaded association lists (Python dicts preserve insertion
order). -/

/-- One rule tier of `recommendations.yaml` (all keys optional, read with
`dict.get` defaults in the engine). -/
structure RuleTier where
  dri_multiplier : Option ℚ
  description : Option String
  supplementation : Option String
  food_sources : Option (List String)
  priority : Option String
deriving DecidableEq

/-- Recommendation rules for one gene key: the `nutrient` entry plus the
`*_risk` tiers, keyed by tier name. -/
structure RecommendationRules where
  nutrient : Option String
  tiers : List (String × RuleTier)
deriving DecidableEq

/-- Loaded `GeneNutrientKnowledgeBase`: `_pairs` keyed by internal
variant id, `_recommendations` keyed by gene key. -/
structure GeneNutrientKnowledgeBase where
  pairs : List (String × GeneNutrientPair)
  recommendations : List (String × RecommendationRules)
deriving DecidableEq

/-- `GeneNutrientKnowledgeBase.get_pair_by_rsid`: scan the pair values
for a matching `variant_rsid`. -/
def GeneNutrientKnowledgeBase.get_pair_by_rsid
    (kb : GeneNutrientKnowledgeBase) (rsid : String) : Option GeneNutrientPair :=
  (kb.pairs.map Prod.snd).find? (fun p => p.variant_rsid == rsid)

/-- `GeneNutrientKnowledgeBase.get_all_tracked_rsids`. -/
def GeneNutrientKnowledgeBase.get_all_tracked_rsids
    (kb : GeneNutrientKnowledgeBase) : List String :=
  kb.pairs.map (fun e => e.2.variant_rsid)

/-- `GeneNutrientKnowledgeBase.get_recommendation_rules`. -/
def GeneNutrientKnowledgeBase.get_recommendation_rules
    (kb : GeneNutrientKnowledgeBase) (gene_key : String) :
    Option RecommendationRules :=
  kb.recommendations.lookup gene_key

/-! ### Risk scoring engine (`risk_scoring.py`) -/

/-- `APOE_EPSILON_MAP`: epsilon classification of the genotype pair at
(rs429358, rs7412), including the reversed-order entries of the source. -/
def APOE_EPSILON_MAP : List ((String × String) × String) :=
  [(("TT", "TT"), "e2/e2"),
   (("TT", "CT"), "e2/e3"),
   (("TT", "CC"), "e3/e3"),
   (("CT", "CC"), "e3/e4"),
   (("CC", "CC"), "e4/e4"),
   (("CT", "CT"), "e2/e4"),
   (("TT", "TC"), "e2/e3"),
   (("TC", "CC"), "e3/e4"),
   (("TC", "TC"), "e2/e4")]

/-- `APOE_RISK_LEVELS`: discrete risk level of each epsilon genotype. -/
def APOE_RISK_LEVELS : List (String × Nat) :=
  [("e2/e2", 0), ("e2/e3", 0), ("e3/e3", 0),
   ("e3/e4", 1), ("e4/e4", 2), ("e2/e4", 1)]

/-- The dict `{0: "low", 1: "moderate", 2: "high"}` indexed in
`_score_apoe`. -/
def RISK_LEVEL_CATEGORY : List (Nat × String) :=
  [(0, "low"), (1, "moderate"), (2, "high")]

/-- The dict `{0: -0.8, 1: 0.0, 2: 1.2}` of representative z-scores
indexed in `_score_apoe`. -/
def RISK_LEVEL_Z : List (Nat × ℚ) :=
  [(0, -4/5), (1, 0), (2, 6/5)]

/-- `TRAIT_VARIANT_MAP`: trait-to-variant mappings for polygenic
scoring. -/
def TRAIT_VARIANT_MAP : List (String × List String) :=
  [("obesity", ["rs9939609", "rs17782313", "rs12970134"]),
   ("folate_metabolism", ["rs1801133", "rs1801131"]),
   ("fatty_acid_metabolism", ["rs174547", "rs498793"]),
   ("lipid_metabolism", ["rs429358", "rs7412"]),
   ("type2_diabetes", ["rs7903146"]),
   ("vitamin_a_conversion", ["rs12934922"]),
   ("metabolic_health", ["rs1501299"]),
   ("sweet_preference", ["rs838133"]),
   ("bone_health", ["rs2228570"])]

/-- `TRAIT_GENE_KEY`: trait-to-gene-key mapping for rule lookup. -/
def TRAIT_GENE_KEY : List (String × String) :=
  [("obesity", "FTO"),
   ("folate_metabolism", "MTHFR"),
   ("fatty_acid_metabolism", "FADS"),
   ("lipid_metabolism", "APOE"),
   ("type2_diabetes", "TCF7L2"),
   ("vitamin_a_conversion", "BCMO1"),
   ("metabolic_health", "ADIPOQ"),
   ("sweet_preference", "FGF21"),
   ("bone_health", "VDR")]

/-- `math.erf`, the Gauss error function. -/
noncomputable def erf (x : ℝ) : ℝ :=
  (2 / Real.sqrt Real.pi) * ∫ t in (0:ℝ)..x, Real.exp (-(t ^ 2))

/-- `_z_to_percentile`: percentile (0-100) of a z-score, rounded to 2
decimals. -/
noncomputable def z_to_percentile (z : ℝ) : ℝ :=
  round2 (50 * (1 + erf (z / Real.sqrt 2)))

/-- `_categorize_risk`: category thresholds at z = ±0.5. -/
noncomputable def categorize_risk (z : ℝ) : String :=
  if z < -(1/2) then "low"
  else if z < 1/2 then "moderate"
  else "high"

/-- The z-score of the single-variant additive model, as computed in
`calculate_single_gene_risk` before rounding: raw score `β·r`, expected
value `2pβ`, variance `2p(1-p)β²`, standard deviation `sqrt(variance)`
(or `1.0` for non-positive variance). -/
noncomputable def single_gene_z (pair : GeneNutrientPair) (count : Nat) : ℝ :=
  let beta : ℝ := (pair.effect_size.value : ℚ)
  let raw_score : ℝ := beta * count
  let p : ℝ := (pair.allele_freq_east_asian : ℚ)
  let expected : ℝ := 2 * p * beta
  let variance : ℝ := 2 * p * (1 - p) * beta ^ 2
  let std_dev : ℝ := if variance > 0 then Real.sqrt variance else 1
  (raw_score - expected) / std_dev

/-- The `RiskScore` built at the end of `calculate_single_gene_risk`
(`rsid` is the requested identifier, listed as the sole contributing
variant). -/
noncomputable def single_gene_score (rsid : String) (pair : GeneNutrientPair)
    (count : Nat) : RiskScore :=
  { trait := pair.gene ++ "_" ++ pair.nutrient
    score := round4 (single_gene_z pair count)
    percentile := z_to_percentile (single_gene_z pair count)
    risk_category := categorize_risk (single_gene_z pair count)
    contributing_variants := [rsid]
    confidence :=
      if pair.evidence_level = "A" ∨ pair.evidence_level = "B" then "high" else "medium" }

/-- `RiskScoringEngine.calculate_single_gene_risk`: `None` when the
variant is absent from the profile, `RiskScoringError` when it is
present in the profile but absent from the knowledge base, otherwise the
additive-model score. -/
noncomputable def calculate_single_gene_risk
    (kb : GeneNutrientKnowledgeBase) (profile : GeneticProfile) (rsid : String) :
    Except PipelineError (Option RiskScore) :=
  match profile.get_genotype_by_rsid rsid with
  | none => .ok none
  | some genotype =>
    match kb.get_pair_by_rsid rsid with
    | none => .error (.riskScoring ("rsID " ++ rsid ++ " not in knowledge base"))
    | some pair =>
      .ok (some (single_gene_score rsid pair (strCount genotype.genotype pair.risk_allele)))

/-- The per-variant collection loop of `calculate_polygenic_risk`: the
`scores` and `contributing` lists, zipped.  The first
`RiskScoringError` raised aborts the whole computation, as in Python. -/
noncomputable def collectVariantScores
    (kb : GeneNutrientKnowledgeBase) (profile : GeneticProfile) :
    List String → Except PipelineError (List (ℝ × String))
  | [] => .ok []
  | rsid :: rest =>
    match calculate_single_gene_risk kb profile rsid with
    | .error e => .error e
    | .ok none => collectVariantScores kb profile rest
    | .ok (some result) =>
      match collectVariantScores kb profile rest with
      | .error e => .error e
      | .ok tail => .ok ((result.score, rsid) :: tail)

/-- The epsilon lookup and risk-level scoring of `_score_apoe`, given
the observed genotype pair at (rs429358, rs7412). -/
noncomputable def apoe_score_of_pair (key : String × String) : Option RiskScore :=
  match APOE_EPSILON_MAP.lookup key with
  | none => none
  | some epsilon =>
    let risk_level := (APOE_RISK_LEVELS.lookup epsilon).getD 1
    match RISK_LEVEL_CATEGORY.lookup risk_level, RISK_LEVEL_Z.lookup risk_level with
    | some risk_category, some z_score =>
      some { trait := "lipid_metabolism"
             score := (z_score : ℚ)
             percentile := z_to_percentile (z_score : ℚ)
             risk_category := risk_category
             contributing_variants := ["rs429358", "rs7412"]
             confidence := "high" }
    -- unreachable: the risk level is always 0, 1 or 2, so the two
    -- dict indexings in the source cannot fail
    | _, _ => none

/-- `RiskScoringEngine._score_apoe`: epsilon-genotype model for the
lipid-metabolism trait. -/
noncomputable def score_apoe (profile : GeneticProfile) : Option RiskScore :=
  match profile.get_genotype_by_rsid "rs429358", profile.get_genotype_by_rsid "rs7412" with
  | some gt_429358, some gt_7412 =>
    apoe_score_of_pair (gt_429358.genotype, gt_7412.genotype)
  | _, _ => none

/-- `_score_apoe` unfolded at a profile carrying both APOE loci. -/
theorem score_apoe_of_lookups (profile : GeneticProfile) (g1 g2 : SNPGenotype)
    (h1 : profile.get_genotype_by_rsid "rs429358" = some g1)
    (h2 : profile.get_genotype_by_rsid "rs7412" = some g2) :
    score_apoe profile = apoe_score_of_pair (g1.genotype, g2.genotype) := by
  rw [score_apoe, h1, h2]

/-- The combined `RiskScore` built by `calculate_polygenic_risk` from
the nonempty list of collected (score, rsid) pairs. -/
noncomputable def polygenic_combined (trait : String) (collected : List (ℝ × String)) :
    RiskScore :=
  let scores := collected.map Prod.fst
  let contributing := collected.map Prod.snd
  let combined : ℝ := scores.sum / (scores.length : ℝ)
  { trait := trait
    score := round4 combined
    percentile := z_to_percentile combined
    risk_category := categorize_risk combined
    contributing_variants := contributing
    confidence := if 2 ≤ contributing.length then "high" else "medium" }

/-- `RiskScoringEngine.calculate_polygenic_risk`. -/
noncomputable def calculate_polygenic_risk
    (kb : GeneNutrientKnowledgeBase) (profile : GeneticProfile)
    (trait : String) (rsids : List String) :
    Except PipelineError (Option RiskScore) :=
  if trait = "lipid_metabolism" then .ok (score_apoe profile)
  else
    match collectVariantScores kb profile rsids with
    | .error e => .error e
    | .ok [] => .ok none
    | .ok (c :: cs) => .ok (some (polygenic_combined trait (c :: cs)))

/-! ### Recommendation engine (`recommendation.py`) -/

/-- `_PRIORITY_ORDER`: sort weight of each recommendation priority. -/
def PRIORITY_ORDER : List (String × Nat) :=
  [("critical", 4), ("high", 3), ("medium", 2), ("low", 1)]

/-- The sort key `_PRIORITY_ORDER.get(r.priority, 0)`. -/
def recWeight (r : DietaryRecommendation) : Nat :=
  (PRIORITY_ORDER.lookup r.priority).getD 0

/-- One entry of the Chinese-DRI baseline table (`chinese_dri.yaml`):
the numeric values keyed `adult_{sex}_{age_group}` plus the unit. -/
structure NutrientEntry where
  values : List (String × ℚ)
  unit : Option String
deriving DecidableEq

/-- The loaded `chinese_dri.yaml` mapping: nutrient key to entry. -/
abbrev DriConfig : Type := List (String × NutrientEntry)

/-- The `nutrient_map` dict of `_get_dri` / `_get_dri_unit`. -/
def NUTRIENT_MAP : List (String × String) :=
  [("folate", "folate"),
   ("energy_balance", "energy"),
   ("dietary_fat", "dietary_fat"),
   ("omega3_omega6", "omega3_epa_dha"),
   ("carbohydrate", "carbohydrate"),
   ("vitamin_a", "vitamin_a"),
   ("insulin_sensitivity", "protein"),
   ("macronutrient_preference", "carbohydrate"),
   ("vitamin_d_calcium", "vitamin_d")]

/-- `_age_to_group`: Chinese DRI age-group string. -/
def age_to_group (age : ℤ) : String :=
  if age < 50 then "18_49"
  else if age < 65 then "50_64"
  else "65_plus"

/-- `RecommendationEngine._get_dri`: baseline value by nutrient, age and
sex, falling back to the 18-49 adult entry of the same sex. -/
def get_dri (dri : DriConfig) (nutrient : String) (age : ℤ) (sex : String) :
    Option ℚ :=
  let dri_key := (NUTRIENT_MAP.lookup nutrient).getD nutrient
  match List.lookup dri_key dri with
  | none => none
  | some nutrient_data =>
    let lookup_key := "adult_" ++ sex ++ "_" ++ age_to_group age
    match nutrient_data.values.lookup lookup_key with
    | some value => some value
    | none => nutrient_data.values.lookup ("adult_" ++ sex ++ "_18_49")

/-- `RecommendationEngine._get_dri_unit`. -/
def get_dri_unit (dri : DriConfig) (nutrient : String) : String :=
  let dri_key := (NUTRIENT_MAP.lookup nutrient).getD nutrient
  match List.lookup dri_key dri with
  | none => "units"
  | some nutrient_data => nutrient_data.unit.getD "units"

/-- `RecommendationEngine._get_evidence_level`: recommendation evidence
grade derived from score confidence. -/
def get_evidence_level (score : RiskScore) : String :=
  ([("high", "A"), ("medium", "B"), ("low", "C")].lookup score.confidence).getD "B"

/-- The `DietaryRecommendation` assembled at the end of `_apply_rules`
from the selected tier and resolved baseline: target scaling and reason
assembly (Python string truthiness: empty supplementation is skipped). -/
def mk_recommendation (dri : DriConfig) (rules : RecommendationRules) (score : RiskScore)
    (tier : RuleTier) (base_dri : ℚ) : DietaryRecommendation :=
  let nutrient := rules.nutrient.getD score.trait
  let multiplier := tier.dri_multiplier.getD 1
  let recommended := round1q (base_dri * multiplier)
  let description := tier.description.getD ""
  let supplementation := tier.supplementation.getD ""
  let reason :=
    if supplementation ≠ "" ∧ supplementation ≠ "Not applicable" then
      description ++ " " ++ supplementation
    else description
  { nutrient := nutrient
    current_dri := base_dri
    recommended_intake := recommended
    unit := get_dri_unit dri nutrient
    adjustment_reason := reason
    food_sources := tier.food_sources.getD []
    priority := tier.priority.getD "medium"
    evidence_level := get_evidence_level score }

/-- `RecommendationEngine._apply_rules`: tier selection by risk
category, baseline lookup, then recommendation assembly. -/
def apply_rules (dri : DriConfig) (rules : RecommendationRules) (score : RiskScore)
    (age : ℤ) (sex : String) : Option DietaryRecommendation :=
  match rules.tiers.lookup (score.risk_category ++ "_risk") with
  | none => none
  | some tier =>
    match get_dri dri (rules.nutrient.getD score.trait) age sex with
    | none => none
    | some base_dri => some (mk_recommendation dri rules score tier base_dri)

/-- `RecommendationEngine._build_recommendations`: one recommendation
per risk score whose trait maps to a gene key with rules and whose rules
apply. -/
def build_recommendations (kb : GeneNutrientKnowledgeBase) (dri : DriConfig) :
    List RiskScore → ℤ → String → List DietaryRecommendation
  | [], _, _ => []
  | score :: rest, age, sex =>
    let tail := build_recommendations kb dri rest age sex
    match TRAIT_GENE_KEY.lookup score.trait with
    | none => tail
    | some gene_key =>
      match kb.get_recommendation_rules gene_key with
      | none => tail
      | some rules =>
        match apply_rules dri rules score age sex with
        | none => tail
        | some rec => rec :: tail

/-- Stable insertion into a weight-descending list: the new element goes
before the first element whose weight is not larger, so earlier-built
recommendations of equal priority stay in front. -/
def insertRecDesc (r : DietaryRecommendation) :
    List DietaryRecommendation → List DietaryRecommendation
  | [] => [r]
  | x :: xs =>
    if recWeight x ≤ recWeight r then r :: x :: xs
    else x :: insertRecDesc r xs

/-- The stable descending sort
`recommendations.sort(key=priority weight, reverse=True)` of
`generate_report` (Python `list.sort` is stable; any stable sort sorted
by the same key computes the same list). -/
def sortRecsDesc : List DietaryRecommendation → List DietaryRecommendation
  | [] => []
  | x :: xs => insertRecDesc x (sortRecsDesc xs)

/-- The trait-selection step of `generate_report`: the traits passed in,
when the list is non-empty (Python truthiness), else all traits of
`TRAIT_VARIANT_MAP`. -/
def resolve_traits (traits : Option (List String)) : List String :=
  match traits with
  | some ts => if ts = [] then TRAIT_VARIANT_MAP.map Prod.fst else ts
  | none => TRAIT_VARIANT_MAP.map Prod.fst

/-- The risk-score collection loop of `generate_report`: polygenic (or
epsilon) score per target trait, keeping the traits that produced a
result; an exception aborts the call. -/
noncomputable def collectScores
    (kb : GeneNutrientKnowledgeBase) (profile : GeneticProfile) :
    List String → Except PipelineError (List RiskScore)
  | [] => .ok []
  | trait :: rest =>
    match calculate_polygenic_risk kb profile trait
        ((TRAIT_VARIANT_MAP.lookup trait).getD []) with
    | .error e => .error e
    | .ok none => collectScores kb profile rest
    | .ok (some result) =>
      match collectScores kb profile rest with
      | .error e => .error e
      | .ok tail => .ok (result :: tail)

/-- `RecommendationEngine.generate_report`.  `now` stands for
`datetime.now().isoformat()`, a value the pipeline only stores. -/
noncomputable def generate_report
    (kb : GeneNutrientKnowledgeBase) (dri : DriConfig) (now : String)
    (profile : GeneticProfile) (age : ℤ) (sex : String)
    (traits : Option (List String)) : Except PipelineError GeneticRiskReport :=
  if sex ≠ "male" ∧ sex ≠ "female" then
    .error (.recommendation ("Invalid sex: " ++ sex ++ ". Must be male or female."))
  else if age < 0 ∨ age > 150 then
    .error (.recommendation "Invalid age")
  else
    match collectScores kb profile (resolve_traits traits) with
    | .error e => .error e
    | .ok risk_scores =>
      let missing := get_missing_rsids profile kb.get_all_tracked_rsids
      let recommendations := build_recommendations kb dri risk_scores age sex
      .ok { individual_id := profile.individual_id
            generated_date := now
            population := profile.population
            risk_scores := risk_scores
            recommendations := sortRecsDesc recommendations
            missing_variants := missing
            limitations := DEFAULT_LIMITATIONS
            disclaimer := DEFAULT_DISCLAIMER }

/-- Recommendations of a successful report (used to state sort
properties without binding the whole report). -/
def recsOf : Except PipelineError GeneticRiskReport → List DietaryRecommendation
  | .ok report => report.recommendations
  | .error _ => []

/-- Score of a successful, present risk-score outcome (used to state
numeric properties without binding the whole record). -/
noncomputable def scoreOf : Except PipelineError (Option RiskScore) → Option ℝ
  | .ok (some rs) => some rs.score
  | _ => none

/-! ### Theorems -/

/-- C4: `calculate_single_gene_risk` returns no score (never an
exception) exactly when the variant is absent from the profile — even if
it is also absent from the knowledge base — and raises the risk-scoring
inconsistency error exactly when the variant is present in the profile
but has no knowledge-base record. -/
theorem single_gene_absence_and_inconsistency
    (kb : GeneNutrientKnowledgeBase) (profile : GeneticProfile) (rsid : String) :
    (calculate_single_gene_risk kb profile rsid = .ok none ↔
      profile.get_genotype_by_rsid rsid = none) ∧
    (isRiskScoringError (calculate_single_gene_risk kb profile rsid) = true ↔
      (profile.get_genotype_by_rsid rsid ≠ none ∧ kb.get_pair_by_rsid rsid = none)) := by
  cases hg : profile.get_genotype_by_rsid rsid with
  | none => simp [calculate_single_gene_risk, hg, isRiskScoringError]
  | some genotype =>
    cases hp : kb.get_pair_by_rsid rsid with
    | none => simp [calculate_single_gene_risk, hg, hp, isRiskScoringError]
    | some pair => simp [calculate_single_gene_risk, hg, hp, isRiskScoringError]

/-- C6 counterexample: with multi-character alleles (which the model
permits, its allele pattern being `[ACGT]+`), a genotype composed only
of reference/alternate characters can still fail
`validate_genotype_consistency`: genotype "AA" with ref "AC", alt "GT"
uses only reference characters yet raises. -/
def g_multi : SNPGenotype :=
  { rsid := "rs1", chromosome := "1", position := 1,
    reference_allele := "AC", alternate_allele := "GT",
    genotype := "AA", zygosity := .unknown, quality_score := none }

/-- C6 (counterexample): the genotype of `g_multi` is composed only of
reference/alternate allele characters, yet validation raises. -/
theorem validate_genotype_composition_cex :
    (∀ ch ∈ g_multi.genotype.data,
      ch ∈ g_multi.reference_allele.data ∨ ch ∈ g_multi.alternate_allele.data) ∧
    g_multi.reference_allele = "AC" ∧ g_multi.alternate_allele = "GT" ∧
    g_multi.genotype = "AA" ∧
    isValidationError (validate_genotype_consistency g_multi) = true := by
  decide

/-- C6 (amended): when the reference and alternate alleles are single
characters, `validate_genotype_consistency` returns `True` exactly for
the two-character genotypes composed only of those two characters, and
raises the data-validation error exactly otherwise. -/
theorem validate_genotype_single_char_composition (g : SNPGenotype) (a b : Char)
    (href : g.reference_allele.data = [a]) (halt : g.alternate_allele.data = [b])
    (hlen : g.genotype.data.length = 2) :
    (validate_genotype_consistency g = .ok true ↔
      ∀ ch ∈ g.genotype.data, ch = a ∨ ch = b) ∧
    (isValidationError (validate_genotype_consistency g) = true ↔
      ¬ (∀ ch ∈ g.genotype.data, ch = a ∨ ch = b)) := by
  have h2 : ∃ c d, g.genotype.data = [c, d] := by
    cases hgd : g.genotype.data with
    | nil => rw [hgd] at hlen; simp at hlen
    | cons c rest =>
      cases rest with
      | nil => rw [hgd] at hlen; simp at hlen
      | cons d rest2 =>
        cases rest2 with
        | nil => exact ⟨c, d, rfl⟩
        | cons e r3 => rw [hgd] at hlen; simp at hlen
  obtain ⟨c, d, hcd⟩ := h2
  have hkey : (g.genotype = g.reference_allele ++ g.reference_allele ∨
      g.genotype = g.reference_allele ++ g.alternate_allele ∨
      g.genotype = g.alternate_allele ++ g.reference_allele ∨
      g.genotype = g.alternate_allele ++ g.alternate_allele) ↔
      (∀ ch ∈ g.genotype.data, ch = a ∨ ch = b) := by
    simp only [String.ext_iff, String.data_append, href, halt, hcd, List.mem_cons,
      List.not_mem_nil, or_false, List.cons.injEq, and_true, forall_eq_or_imp, forall_eq,
      List.cons_append, List.nil_append]
    constructor
    · rintro (⟨h1, h3⟩ | ⟨h1, h3⟩ | ⟨h1, h3⟩ | ⟨h1, h3⟩) <;> exact ⟨by tauto, by tauto⟩
    · rintro ⟨h1 | h1, h3 | h3⟩ <;> tauto
  rw [← hkey]
  unfold validate_genotype_consistency
  by_cases hcond : (g.genotype = g.reference_allele ++ g.reference_allele ∨
      g.genotype = g.reference_allele ++ g.alternate_allele ∨
      g.genotype = g.alternate_allele ++ g.reference_allele ∨
      g.genotype = g.alternate_allele ++ g.alternate_allele)
  · simp [hcond, isValidationError]
  · simp [hcond, isValidationError]

/-- C6 witness input: a plain SNP genotype with single-character
alleles. -/
def g_snp : SNPGenotype :=
  { rsid := "rs1801133", chromosome := "1", position := 11796321,
    reference_allele := "C", alternate_allele := "T",
    genotype := "CT", zygosity := .heterozygous, quality_score := some 30 }

/-- Witness for the amended C6 theorem at `g_snp`. -/
theorem validate_genotype_single_char_composition_witness :
    (g_snp.reference_allele.data = ['C'] ∧ g_snp.alternate_allele.data = ['T'] ∧
      g_snp.genotype.data.length = 2) ∧
    ((validate_genotype_consistency g_snp = .ok true ↔
      ∀ ch ∈ g_snp.genotype.data, ch = 'C' ∨ ch = 'T') ∧
    (isValidationError (validate_genotype_consistency g_snp) = true ↔
      ¬ (∀ ch ∈ g_snp.genotype.data, ch = 'C' ∨ ch = 'T'))) :=
  ⟨⟨by decide, by decide, by decide⟩,
    validate_genotype_single_char_composition g_snp 'C' 'T'
      (by decide) (by decide) (by decide)⟩

/-- C2 counterexample input: APOE genotypes ("CT", "CT") — a canonical
table pair. -/
def profile_ctct : GeneticProfile :=
  { individual_id := "cex-ctct",
    genotypes :=
      [{ rsid := "rs429358", chromosome := "19", position := 44908684,
         reference_allele := "T", alternate_allele := "C",
         genotype := "CT", zygosity := .heterozygous, quality_score := none },
       { rsid := "rs7412", chromosome := "19", position := 44908822,
         reference_allele := "C", alternate_allele := "T",
         genotype := "CT", zygosity := .heterozygous, quality_score := none }],
    population := "han_chinese", data_source := "WGS", collection_date := none }

/-- C2 counterexample input: the first APOE genotype reversed to "TC". -/
def profile_tcct : GeneticProfile :=
  { individual_id := "cex-tcct",
    genotypes :=
      [{ rsid := "rs429358", chromosome := "19", position := 44908684,
         reference_allele := "T", alternate_allele := "C",
         genotype := "TC", zygosity := .heterozygous, quality_score := none },
       { rsid := "rs7412", chromosome := "19", position := 44908822,
         reference_allele := "C", alternate_allele := "T",
         genotype := "CT", zygosity := .heterozygous, quality_score := none }],
    population := "han_chinese", data_source := "WGS", collection_date := none }

/-- C2 (counterexample): the genotype pair ("CT", "CT") is in the lookup
table (classification e2/e4, scored as moderate), but reversing the
character order of the first genotype string alone gives ("TC", "CT"),
which matches no table entry and yields no score — not the same
classification as the canonical pair. -/
theorem apoe_reversal_cex :
    (("CT", "CT"), "e2/e4") ∈ APOE_EPSILON_MAP ∧
    strRev "CT" = "TC" ∧
    (score_apoe profile_ctct).map (fun rs => rs.risk_category) = some "moderate" ∧
    APOE_EPSILON_MAP.lookup ("TC", "CT") = none ∧
    score_apoe profile_tcct = none := by
  refine ⟨by decide, by decide, ?_, by decide, ?_⟩
  · rfl
  · rfl

/-- C2 (amended): the epsilon lookup maps (TT, TT) to e2/e2 (level 0,
category low, score −0.8) and (CC, CC) to e4/e4 (level 2, category
high, score +1.2); risk levels 0/1/2 map to categories
low/moderate/high with representative z-scores −0.8/0.0/+1.2; a missing
locus or an unmatched genotype pair yields no score rather than an
error; and for every pair in the lookup table other than the
double-heterozygous pairs (CT, CT) and (TC, TC), reversing the
character order within either genotype string resolves to the same
classification as the canonical pair, while for (CT, CT) and (TC, TC)
reversing both strings does (reversing exactly one of them matches no
table entry). -/
theorem apoe_epsilon_scoring :
    (APOE_EPSILON_MAP.lookup ("TT", "TT") = some "e2/e2" ∧
      APOE_RISK_LEVELS.lookup "e2/e2" = some 0 ∧
      APOE_EPSILON_MAP.lookup ("CC", "CC") = some "e4/e4" ∧
      APOE_RISK_LEVELS.lookup "e4/e4" = some 2) ∧
    (RISK_LEVEL_CATEGORY.lookup 0 = some "low" ∧ RISK_LEVEL_Z.lookup 0 = some (-4/5) ∧
      RISK_LEVEL_CATEGORY.lookup 1 = some "moderate" ∧ RISK_LEVEL_Z.lookup 1 = some 0 ∧
      RISK_LEVEL_CATEGORY.lookup 2 = some "high" ∧ RISK_LEVEL_Z.lookup 2 = some (6/5)) ∧
    (∀ profile g1 g2, profile.get_genotype_by_rsid "rs429358" = some g1 →
      profile.get_genotype_by_rsid "rs7412" = some g2 →
      g1.genotype = "TT" → g2.genotype = "TT" →
      ∃ rs, score_apoe profile = some rs ∧ rs.trait = "lipid_metabolism" ∧
        rs.risk_category = "low" ∧ rs.score = -(4/5 : ℝ)) ∧
    (∀ profile g1 g2, profile.get_genotype_by_rsid "rs429358" = some g1 →
      profile.get_genotype_by_rsid "rs7412" = some g2 →
      g1.genotype = "CC" → g2.genotype = "CC" →
      ∃ rs, score_apoe profile = some rs ∧ rs.trait = "lipid_metabolism" ∧
        rs.risk_category = "high" ∧ rs.score = (6/5 : ℝ)) ∧
    (∀ profile : GeneticProfile, profile.get_genotype_by_rsid "rs429358" = none ∨
      profile.get_genotype_by_rsid "rs7412" = none → score_apoe profile = none) ∧
    (∀ profile g1 g2, profile.get_genotype_by_rsid "rs429358" = some g1 →
      profile.get_genotype_by_rsid "rs7412" = some g2 →
      APOE_EPSILON_MAP.lookup (g1.genotype, g2.genotype) = none →
      score_apoe profile = none) ∧
    (∀ e ∈ APOE_EPSILON_MAP,
      (e.1 ≠ ("CT", "CT") ∧ e.1 ≠ ("TC", "TC") →
        APOE_EPSILON_MAP.lookup (strRev e.1.1, e.1.2) = some e.2 ∧
        APOE_EPSILON_MAP.lookup (e.1.1, strRev e.1.2) = some e.2) ∧
      (e.1 = ("CT", "CT") ∨ e.1 = ("TC", "TC") →
        APOE_EPSILON_MAP.lookup (strRev e.1.1, strRev e.1.2) = some e.2)) := by
  refine ⟨by decide, ⟨rfl, rfl, rfl, rfl, rfl, rfl⟩, ?_, ?_, ?_, ?_, by decide⟩
  · intro profile g1 g2 h1 h2 hg1 hg2
    have hs : score_apoe profile = apoe_score_of_pair ("TT", "TT") := by
      rw [score_apoe_of_lookups profile g1 g2 h1 h2, hg1, hg2]
    refine ⟨{ trait := "lipid_metabolism", score := ((-4/5 : ℚ) : ℝ),
              percentile := z_to_percentile ((-4/5 : ℚ) : ℝ),
              risk_category := "low", contributing_variants := ["rs429358", "rs7412"],
              confidence := "high" }, ?_, rfl, rfl, ?_⟩
    · rw [hs]; rfl
    · push_cast; ring
  · intro profile g1 g2 h1 h2 hg1 hg2
    have hs : score_apoe profile = apoe_score_of_pair ("CC", "CC") := by
      rw [score_apoe_of_lookups profile g1 g2 h1 h2, hg1, hg2]
    refine ⟨{ trait := "lipid_metabolism", score := ((6/5 : ℚ) : ℝ),
              percentile := z_to_percentile ((6/5 : ℚ) : ℝ),
              risk_category := "high", contributing_variants := ["rs429358", "rs7412"],
              confidence := "high" }, ?_, rfl, rfl, ?_⟩
    · rw [hs]; rfl
    · push_cast; ring
  · intro profile h
    rcases h with h | h
    · rw [score_apoe, h]
    · rw [score_apoe, h]
      cases profile.get_genotype_by_rsid "rs429358" <;> rfl
  · intro profile g1 g2 h1 h2 hmap
    rw [score_apoe_of_lookups profile g1 g2 h1 h2, apoe_score_of_pair, hmap]

/-! ### Rounding and z-score helper lemmas -/

/-- `round` is monotone. -/
theorem round_mono_of_le {x y : ℝ} (h : x ≤ y) : round x ≤ round y := by
  rw [round_eq, round_eq]
  exact Int.floor_mono (by linarith)

/-- `round4` is monotone. -/
theorem round4_mono {x y : ℝ} (h : x ≤ y) : round4 x ≤ round4 y := by
  unfold round4
  have h1 : round (x * 10000) ≤ round (y * 10000) := round_mono_of_le (by nlinarith)
  have h2 : ((round (x * 10000) : ℤ) : ℝ) ≤ ((round (y * 10000) : ℤ) : ℝ) := by
    exact_mod_cast h1
  linarith

/-- `round4` increases strictly across a gap of at least one. -/
theorem round4_strict {x y : ℝ} (h : x + 1 ≤ y) : round4 x < round4 y := by
  unfold round4
  have h1 : round (x * 10000) + 10000 ≤ round (y * 10000) := by
    have h2 : round (x * 10000 + ((10000 : ℤ) : ℝ)) ≤ round (y * 10000) := by
      apply round_mono_of_le
      push_cast
      nlinarith
    rwa [round_add_int] at h2
  have h3 : ((round (x * 10000) : ℤ) : ℝ) + 10000 ≤ ((round (y * 10000) : ℤ) : ℝ) := by
    exact_mod_cast h1
  have h4 : (0:ℝ) < 10000 := by norm_num
  rw [div_lt_div_iff h4 h4]
  nlinarith

/-- With zero allele frequency the variance vanishes, the divisor is one
and the z-score is the raw score. -/
theorem single_gene_z_freq_zero (pair : GeneNutrientPair)
    (hp : pair.allele_freq_east_asian = 0) (count : Nat) :
    single_gene_z pair count = (pair.effect_size.value : ℝ) * count := by
  simp [single_gene_z, hp]

/-- The unrounded single-variant z-score is strictly monotone in the
risk-allele count when the effect size is positive. -/
theorem single_gene_z_lt (pair : GeneNutrientPair) (r1 r2 : Nat)
    (hb : 0 < pair.effect_size.value)
    (h0 : 0 ≤ pair.allele_freq_east_asian) (h1 : pair.allele_freq_east_asian ≤ 1)
    (hr : r1 < r2) :
    single_gene_z pair r1 < single_gene_z pair r2 := by
  have hbR : (0:ℝ) < (pair.effect_size.value : ℝ) := by exact_mod_cast hb
  have hp0 : (0:ℝ) ≤ (pair.allele_freq_east_asian : ℝ) := by exact_mod_cast h0
  have hp1 : ((pair.allele_freq_east_asian : ℝ) : ℝ) ≤ 1 := by exact_mod_cast h1
  have hrR : ((r1 : ℕ) : ℝ) < ((r2 : ℕ) : ℝ) := by exact_mod_cast hr
  have hd : 0 < (if 2 * (pair.allele_freq_east_asian : ℝ) *
      (1 - (pair.allele_freq_east_asian : ℝ)) * (pair.effect_size.value : ℝ) ^ 2 > 0 then
        Real.sqrt (2 * (pair.allele_freq_east_asian : ℝ) *
          (1 - (pair.allele_freq_east_asian : ℝ)) * (pair.effect_size.value : ℝ) ^ 2)
      else 1) := by
    by_cases h : 2 * (pair.allele_freq_east_asian : ℝ) *
        (1 - (pair.allele_freq_east_asian : ℝ)) * (pair.effect_size.value : ℝ) ^ 2 > 0
    · rw [if_pos h]
      exact Real.sqrt_pos.mpr h
    · rw [if_neg h]
      norm_num
  simp only [single_gene_z]
  rw [div_lt_div_right hd]
  nlinarith

/-- When the variance is nonzero, consecutive risk-allele counts are at
least one z-unit apart: the standard deviation `β·sqrt(2p(1-p))` is at
most `β`, so each extra risk allele moves the z-score by at least 1. -/
theorem single_gene_z_gap (pair : GeneNutrientPair) (r1 r2 : Nat)
    (hb : 0 < pair.effect_size.value)
    (h0 : 0 ≤ pair.allele_freq_east_asian) (h1 : pair.allele_freq_east_asian ≤ 1)
    (hr : r1 < r2)
    (hv : 2 * (pair.allele_freq_east_asian : ℝ) * (1 - (pair.allele_freq_east_asian : ℝ)) *
      (pair.effect_size.value : ℝ) ^ 2 ≠ 0) :
    single_gene_z pair r1 + 1 ≤ single_gene_z pair r2 := by
  have hbR : (0:ℝ) < (pair.effect_size.value : ℝ) := by exact_mod_cast hb
  have hp0 : (0:ℝ) ≤ (pair.allele_freq_east_asian : ℝ) := by exact_mod_cast h0
  have hp1 : ((pair.allele_freq_east_asian : ℝ) : ℝ) ≤ 1 := by exact_mod_cast h1
  have hvnn : (0:ℝ) ≤ 2 * (pair.allele_freq_east_asian : ℝ) *
      (1 - (pair.allele_freq_east_asian : ℝ)) * (pair.effect_size.value : ℝ) ^ 2 := by
    have h2 : (0:ℝ) ≤ 2 * (pair.allele_freq_east_asian : ℝ) := by linarith
    have h3 : (0:ℝ) ≤ 1 - (pair.allele_freq_east_asian : ℝ) := by linarith
    exact mul_nonneg (mul_nonneg h2 h3) (sq_nonneg _)
  have hvpos : (0:ℝ) < 2 * (pair.allele_freq_east_asian : ℝ) *
      (1 - (pair.allele_freq_east_asian : ℝ)) * (pair.effect_size.value : ℝ) ^ 2 :=
    lt_of_le_of_ne hvnn (Ne.symm hv)
  have h2p : (0:ℝ) < 2 * (pair.allele_freq_east_asian : ℝ) *
      (1 - (pair.allele_freq_east_asian : ℝ)) := by
    by_contra hle
    push_neg at hle
    nlinarith [sq_nonneg ((pair.effect_size.value : ℝ))]
  have hsd : Real.sqrt (2 * (pair.allele_freq_east_asian : ℝ) *
      (1 - (pair.allele_freq_east_asian : ℝ)) * (pair.effect_size.value : ℝ) ^ 2) =
      Real.sqrt (2 * (pair.allele_freq_east_asian : ℝ) *
        (1 - (pair.allele_freq_east_asian : ℝ))) * (pair.effect_size.value : ℝ) := by
    rw [Real.sqrt_mul h2p.le, Real.sqrt_sq hbR.le]
  have hs_pos : 0 < Real.sqrt (2 * (pair.allele_freq_east_asian : ℝ) *
      (1 - (pair.allele_freq_east_asian : ℝ))) := Real.sqrt_pos.mpr h2p
  have hs_le : Real.sqrt (2 * (pair.allele_freq_east_asian : ℝ) *
      (1 - (pair.allele_freq_east_asian : ℝ))) ≤ 1 := by
    have hle1 : 2 * (pair.allele_freq_east_asian : ℝ) *
        (1 - (pair.allele_freq_east_asian : ℝ)) ≤ 1 := by
      nlinarith [sq_nonneg (2 * (pair.allele_freq_east_asian : ℝ) - 1)]
    simpa using Real.sqrt_le_sqrt hle1
  have hr12 : (1:ℝ) ≤ ((r2 : ℕ) : ℝ) - ((r1 : ℕ) : ℝ) := by
    have := hr
    have h5 : (r1 + 1 : ℕ) ≤ r2 := hr
    have h6 : ((r1 : ℕ) : ℝ) + 1 ≤ ((r2 : ℕ) : ℝ) := by exact_mod_cast h5
    linarith
  have hdiff : single_gene_z pair r2 - single_gene_z pair r1 =
      (((r2 : ℕ) : ℝ) - ((r1 : ℕ) : ℝ)) /
        Real.sqrt (2 * (pair.allele_freq_east_asian : ℝ) *
          (1 - (pair.allele_freq_east_asian : ℝ))) := by
    simp only [single_gene_z]
    rw [if_pos hvpos, hsd, div_sub_div_same]
    rw [show (pair.effect_size.value : ℝ) * ((r2 : ℕ) : ℝ) -
        2 * (pair.allele_freq_east_asian : ℝ) * (pair.effect_size.value : ℝ) -
        ((pair.effect_size.value : ℝ) * ((r1 : ℕ) : ℝ) -
          2 * (pair.allele_freq_east_asian : ℝ) * (pair.effect_size.value : ℝ)) =
        (((r2 : ℕ) : ℝ) - ((r1 : ℕ) : ℝ)) * (pair.effect_size.value : ℝ) from by ring]
    exact mul_div_mul_right _ _ (ne_of_gt hbR)
  have hone : (1:ℝ) ≤ (((r2 : ℕ) : ℝ) - ((r1 : ℕ) : ℝ)) /
      Real.sqrt (2 * (pair.allele_freq_east_asian : ℝ) *
        (1 - (pair.allele_freq_east_asian : ℝ))) := by
    rw [le_div_iff hs_pos]
    nlinarith
  linarith [hdiff, hone]

/-- `calculate_single_gene_risk` unfolded when both lookups succeed. -/
theorem calculate_single_gene_risk_of_lookups
    (kb : GeneNutrientKnowledgeBase) (profile : GeneticProfile) (rsid : String)
    (g : SNPGenotype) (pair : GeneNutrientPair)
    (hg : profile.get_genotype_by_rsid rsid = some g)
    (hp : kb.get_pair_by_rsid rsid = some pair) :
    calculate_single_gene_risk kb profile rsid =
      .ok (some (single_gene_score rsid pair (strCount g.genotype pair.risk_allele))) := by
  rw [calculate_single_gene_risk, hg, hp]

/-- C1: for a profile carrying the variant and a knowledge-base record
for it with risk allele `a`, effect size `β` and population frequency
`p`, `calculate_single_gene_risk` scores the z-value
`(β·r − 2pβ) / sqrt(2p(1−p)β²)` rounded to 4 decimals, where `r` counts
`a` in the observed genotype, and with divisor `1.0` when the variance
is zero. -/
theorem single_gene_z_score_formula
    (kb : GeneNutrientKnowledgeBase) (profile : GeneticProfile) (rsid : String)
    (g : SNPGenotype) (pair : GeneNutrientPair)
    (hg : profile.get_genotype_by_rsid rsid = some g)
    (hp : kb.get_pair_by_rsid rsid = some pair)
    (h0 : 0 ≤ pair.allele_freq_east_asian) (h1 : pair.allele_freq_east_asian ≤ 1) :
    ∃ rs, calculate_single_gene_risk kb profile rsid = .ok (some rs) ∧
      rs.score = round4
        (((pair.effect_size.value : ℝ) * ((strCount g.genotype pair.risk_allele : ℕ) : ℝ) -
            2 * (pair.allele_freq_east_asian : ℝ) * (pair.effect_size.value : ℝ)) /
          (if 2 * (pair.allele_freq_east_asian : ℝ) * (1 - (pair.allele_freq_east_asian : ℝ)) *
              (pair.effect_size.value : ℝ) ^ 2 = 0 then 1
           else Real.sqrt (2 * (pair.allele_freq_east_asian : ℝ) *
              (1 - (pair.allele_freq_east_asian : ℝ)) * (pair.effect_size.value : ℝ) ^ 2))) := by
  refine ⟨single_gene_score rsid pair (strCount g.genotype pair.risk_allele),
    calculate_single_gene_risk_of_lookups kb profile rsid g pair hg hp, ?_⟩
  show round4 (single_gene_z pair (strCount g.genotype pair.risk_allele)) = _
  have hvnn : (0:ℝ) ≤ 2 * (pair.allele_freq_east_asian : ℝ) *
      (1 - (pair.allele_freq_east_asian : ℝ)) * (pair.effect_size.value : ℝ) ^ 2 := by
    have hp0 : (0:ℝ) ≤ (pair.allele_freq_east_asian : ℝ) := by exact_mod_cast h0
    have hp1 : ((pair.allele_freq_east_asian : ℝ) : ℝ) ≤ 1 := by exact_mod_cast h1
    have h2 : (0:ℝ) ≤ 2 * (pair.allele_freq_east_asian : ℝ) := by linarith
    have h3 : (0:ℝ) ≤ 1 - (pair.allele_freq_east_asian : ℝ) := by linarith
    exact mul_nonneg (mul_nonneg h2 h3) (sq_nonneg _)
  have hif : (if 2 * (pair.allele_freq_east_asian : ℝ) * (1 - (pair.allele_freq_east_asian : ℝ)) *
      (pair.effect_size.value : ℝ) ^ 2 > 0 then
        Real.sqrt (2 * (pair.allele_freq_east_asian : ℝ) *
          (1 - (pair.allele_freq_east_asian : ℝ)) * (pair.effect_size.value : ℝ) ^ 2)
      else 1) =
      (if 2 * (pair.allele_freq_east_asian : ℝ) * (1 - (pair.allele_freq_east_asian : ℝ)) *
      (pair.effect_size.value : ℝ) ^ 2 = 0 then 1
       else Real.sqrt (2 * (pair.allele_freq_east_asian : ℝ) *
          (1 - (pair.allele_freq_east_asian : ℝ)) * (pair.effect_size.value : ℝ) ^ 2)) := by
    by_cases hz : 2 * (pair.allele_freq_east_asian : ℝ) *
        (1 - (pair.allele_freq_east_asian : ℝ)) * (pair.effect_size.value : ℝ) ^ 2 = 0
    · rw [if_pos hz, if_neg (by rw [hz]; exact lt_irrefl 0)]
    · rw [if_neg hz, if_pos (lt_of_le_of_ne hvnn (Ne.symm hz))]
  simp only [single_gene_z]
  rw [hif]

/-- C1 witness knowledge-base pair: rs1801133, risk allele T, effect
size 2, frequency 0. -/
def pair_mthfr : GeneNutrientPair :=
  { gene := "MTHFR", variant_rsid := "rs1801133", nutrient := "folate",
    risk_allele := "T", protective_allele := "C",
    effect_size := { value := 2, ci_lower := 1, ci_upper := 3,
                     unit := "umol/L", population := "east_asian" },
    allele_freq_east_asian := 0, evidence_level := "A", pubmed_ids := [] }

/-- C1 witness knowledge base. -/
def kb_mthfr : GeneNutrientKnowledgeBase :=
  { pairs := [("MTHFR_C677T", pair_mthfr)], recommendations := [] }

/-- C1 witness profile: carries the rs1801133 genotype `g_snp`. -/
def profile_mthfr : GeneticProfile :=
  { individual_id := "w1", genotypes := [g_snp],
    population := "han_chinese", data_source := "WGS", collection_date := none }

/-- Witness for the C1 theorem at a concrete profile and pair. -/
theorem single_gene_z_score_formula_witness :
    (profile_mthfr.get_genotype_by_rsid "rs1801133" = some g_snp ∧
      kb_mthfr.get_pair_by_rsid "rs1801133" = some pair_mthfr ∧
      0 ≤ pair_mthfr.allele_freq_east_asian ∧ pair_mthfr.allele_freq_east_asian ≤ 1) ∧
    (∃ rs, calculate_single_gene_risk kb_mthfr profile_mthfr "rs1801133" = .ok (some rs) ∧
      rs.score = round4
        (((pair_mthfr.effect_size.value : ℝ) *
            ((strCount g_snp.genotype pair_mthfr.risk_allele : ℕ) : ℝ) -
            2 * (pair_mthfr.allele_freq_east_asian : ℝ) * (pair_mthfr.effect_size.value : ℝ)) /
          (if 2 * (pair_mthfr.allele_freq_east_asian : ℝ) *
              (1 - (pair_mthfr.allele_freq_east_asian : ℝ)) *
              (pair_mthfr.effect_size.value : ℝ) ^ 2 = 0 then 1
           else Real.sqrt (2 * (pair_mthfr.allele_freq_east_asian : ℝ) *
              (1 - (pair_mthfr.allele_freq_east_asian : ℝ)) *
              (pair_mthfr.effect_size.value : ℝ) ^ 2)))) :=
  ⟨⟨rfl, rfl, by show (0:ℚ) ≤ 0; norm_num, by show (0:ℚ) ≤ 1; norm_num⟩,
    single_gene_z_score_formula kb_mthfr profile_mthfr "rs1801133" g_snp pair_mthfr
      rfl rfl (by show (0:ℚ) ≤ 0; norm_num) (by show (0:ℚ) ≤ 1; norm_num)⟩

/-- Evaluate `round4` from floor bounds on `x·10⁴ + 1/2`. -/
theorem round4_eq_of_bounds (x : ℝ) (n : ℤ) (h1 : (n:ℝ) ≤ x * 10000 + 1/2)
    (h2 : x * 10000 + 1/2 < n + 1) : round4 x = (n : ℝ) / 10000 := by
  unfold round4
  rw [round_eq, Int.floor_eq_iff.mpr ⟨h1, h2⟩]

/-- Projection lemma for the single-variant score. -/
theorem single_gene_score_score (rsid : String) (pair : GeneNutrientPair) (count : Nat) :
    (single_gene_score rsid pair count).score = round4 (single_gene_z pair count) := rfl

/-- Projection lemma for the combined polygenic score. -/
theorem polygenic_combined_score (trait : String) (collected : List (ℝ × String)) :
    (polygenic_combined trait collected).score =
      round4 ((collected.map Prod.fst).sum / ((collected.map Prod.fst).length : ℝ)) := rfl

/-- C2 witness genotype at rs429358. -/
def gt_tt_429358 : SNPGenotype :=
  { rsid := "rs429358", chromosome := "19", position := 44908684,
    reference_allele := "T", alternate_allele := "C",
    genotype := "TT", zygosity := .homozygous_reference, quality_score := none }

/-- C2 witness genotype at rs7412. -/
def gt_tt_7412 : SNPGenotype :=
  { rsid := "rs7412", chromosome := "19", position := 44908822,
    reference_allele := "C", alternate_allele := "T",
    genotype := "TT", zygosity := .homozygous_alternate, quality_score := none }

/-- C2 witness profile: e2/e2 at APOE. -/
def profile_tttt : GeneticProfile :=
  { individual_id := "w2", genotypes := [gt_tt_429358, gt_tt_7412],
    population := "han_chinese", data_source := "WGS", collection_date := none }

/-- Witness for the amended C2 theorem: a (TT, TT) profile scores e2/e2
low −0.8, and a profile without the APOE loci gets no score. -/
theorem apoe_epsilon_scoring_witness :
    (profile_tttt.get_genotype_by_rsid "rs429358" = some gt_tt_429358 ∧
      profile_tttt.get_genotype_by_rsid "rs7412" = some gt_tt_7412 ∧
      gt_tt_429358.genotype = "TT" ∧ gt_tt_7412.genotype = "TT") ∧
    (∃ rs, score_apoe profile_tttt = some rs ∧ rs.trait = "lipid_metabolism" ∧
      rs.risk_category = "low" ∧ rs.score = -(4/5 : ℝ)) ∧
    (profile_mthfr.get_genotype_by_rsid "rs429358" = none ∧
      score_apoe profile_mthfr = none) :=
  ⟨⟨rfl, rfl, rfl, rfl⟩,
    apoe_epsilon_scoring.2.2.1 profile_tttt gt_tt_429358 gt_tt_7412 rfl rfl rfl rfl,
    ⟨rfl, apoe_epsilon_scoring.2.2.2.2.1 profile_mthfr (Or.inl rfl)⟩⟩

/-- C5 (amended): with fixed record, β > 0 and p ∈ [0,1], a larger
risk-allele count gives a strictly larger raw score and strictly larger
unrounded z-score; the 4-decimal-rounded returned score is
nondecreasing, and strictly increases whenever the variance
`2p(1−p)β²` is nonzero. -/
theorem single_gene_risk_monotonicity
    (kb : GeneNutrientKnowledgeBase) (p1 p2 : GeneticProfile) (rsid : String)
    (g1 g2 : SNPGenotype) (pair : GeneNutrientPair)
    (hg1 : p1.get_genotype_by_rsid rsid = some g1)
    (hg2 : p2.get_genotype_by_rsid rsid = some g2)
    (hp : kb.get_pair_by_rsid rsid = some pair)
    (hb : 0 < pair.effect_size.value)
    (h0 : 0 ≤ pair.allele_freq_east_asian) (h1 : pair.allele_freq_east_asian ≤ 1)
    (hr : strCount g1.genotype pair.risk_allele < strCount g2.genotype pair.risk_allele) :
    (pair.effect_size.value : ℝ) * ((strCount g1.genotype pair.risk_allele : ℕ) : ℝ) <
      (pair.effect_size.value : ℝ) * ((strCount g2.genotype pair.risk_allele : ℕ) : ℝ) ∧
    single_gene_z pair (strCount g1.genotype pair.risk_allele) <
      single_gene_z pair (strCount g2.genotype pair.risk_allele) ∧
    ∃ rs1 rs2, calculate_single_gene_risk kb p1 rsid = .ok (some rs1) ∧
      calculate_single_gene_risk kb p2 rsid = .ok (some rs2) ∧
      rs1.score ≤ rs2.score ∧
      (2 * (pair.allele_freq_east_asian : ℝ) * (1 - (pair.allele_freq_east_asian : ℝ)) *
          (pair.effect_size.value : ℝ) ^ 2 ≠ 0 → rs1.score < rs2.score) := by
  have hbR : (0:ℝ) < (pair.effect_size.value : ℝ) := by exact_mod_cast hb
  have hrR : ((strCount g1.genotype pair.risk_allele : ℕ) : ℝ) <
      ((strCount g2.genotype pair.risk_allele : ℕ) : ℝ) := by exact_mod_cast hr
  have hz := single_gene_z_lt pair _ _ hb h0 h1 hr
  refine ⟨by nlinarith, hz,
    single_gene_score rsid pair (strCount g1.genotype pair.risk_allele),
    single_gene_score rsid pair (strCount g2.genotype pair.risk_allele),
    calculate_single_gene_risk_of_lookups kb p1 rsid g1 pair hg1 hp,
    calculate_single_gene_risk_of_lookups kb p2 rsid g2 pair hg2 hp, ?_, ?_⟩
  · rw [single_gene_score_score, single_gene_score_score]
    exact round4_mono hz.le
  · intro hv
    rw [single_gene_score_score, single_gene_score_score]
    exact round4_strict (single_gene_z_gap pair _ _ hb h0 h1 hr hv)

/-- C5 witness pair: rs10, effect size 1, frequency 1/2. -/
def pair_half : GeneNutrientPair :=
  { gene := "G1", variant_rsid := "rs10", nutrient := "n1",
    risk_allele := "T", protective_allele := "C",
    effect_size := { value := 1, ci_lower := 1, ci_upper := 1,
                     unit := "u", population := "east_asian" },
    allele_freq_east_asian := 1/2, evidence_level := "A", pubmed_ids := [] }

/-- C5 witness knowledge base. -/
def kb_half : GeneNutrientKnowledgeBase :=
  { pairs := [("V10", pair_half)], recommendations := [] }

/-- rs10 genotype CC (zero risk alleles). -/
def gt10_cc : SNPGenotype :=
  { rsid := "rs10", chromosome := "1", position := 10,
    reference_allele := "C", alternate_allele := "T",
    genotype := "CC", zygosity := .homozygous_reference, quality_score := none }

/-- rs10 genotype CT (one risk allele). -/
def gt10_ct : SNPGenotype :=
  { rsid := "rs10", chromosome := "1", position := 10,
    reference_allele := "C", alternate_allele := "T",
    genotype := "CT", zygosity := .heterozygous, quality_score := none }

/-- Profile carrying rs10 = CC. -/
def profile_cc : GeneticProfile :=
  { individual_id := "w5a", genotypes := [gt10_cc],
    population := "han_chinese", data_source := "WGS", collection_date := none }

/-- Profile carrying rs10 = CT. -/
def profile_ct : GeneticProfile :=
  { individual_id := "w5b", genotypes := [gt10_ct],
    population := "han_chinese", data_source := "WGS", collection_date := none }

/-- Witness for the amended C5 theorem at a concrete pair with positive
variance. -/
theorem single_gene_risk_monotonicity_witness :
    (profile_cc.get_genotype_by_rsid "rs10" = some gt10_cc ∧
      profile_ct.get_genotype_by_rsid "rs10" = some gt10_ct ∧
      kb_half.get_pair_by_rsid "rs10" = some pair_half ∧
      0 < pair_half.effect_size.value ∧
      0 ≤ pair_half.allele_freq_east_asian ∧ pair_half.allele_freq_east_asian ≤ 1 ∧
      strCount gt10_cc.genotype pair_half.risk_allele <
        strCount gt10_ct.genotype pair_half.risk_allele) ∧
    ((pair_half.effect_size.value : ℝ) *
        ((strCount gt10_cc.genotype pair_half.risk_allele : ℕ) : ℝ) <
      (pair_half.effect_size.value : ℝ) *
        ((strCount gt10_ct.genotype pair_half.risk_allele : ℕ) : ℝ) ∧
    single_gene_z pair_half (strCount gt10_cc.genotype pair_half.risk_allele) <
      single_gene_z pair_half (strCount gt10_ct.genotype pair_half.risk_allele) ∧
    ∃ rs1 rs2, calculate_single_gene_risk kb_half profile_cc "rs10" = .ok (some rs1) ∧
      calculate_single_gene_risk kb_half profile_ct "rs10" = .ok (some rs2) ∧
      rs1.score ≤ rs2.score ∧
      (2 * (pair_half.allele_freq_east_asian : ℝ) *
          (1 - (pair_half.allele_freq_east_asian : ℝ)) *
          (pair_half.effect_size.value : ℝ) ^ 2 ≠ 0 → rs1.score < rs2.score)) :=
  ⟨⟨rfl, rfl, rfl, by show (0:ℚ) < 1; norm_num, by show (0:ℚ) ≤ 1/2; norm_num,
      by show (1/2:ℚ) ≤ 1; norm_num, by decide⟩,
    single_gene_risk_monotonicity kb_half profile_cc profile_ct "rs10" gt10_cc gt10_ct
      pair_half rfl rfl rfl (by show (0:ℚ) < 1; norm_num) (by show (0:ℚ) ≤ 1/2; norm_num)
      (by show (1/2:ℚ) ≤ 1; norm_num) (by decide)⟩

/-- C5 counterexample pair: rs10, tiny effect size 1/100000, frequency
0 (zero variance, divisor 1). -/
def pair_tiny : GeneNutrientPair :=
  { gene := "G2", variant_rsid := "rs10", nutrient := "n2",
    risk_allele := "T", protective_allele := "C",
    effect_size := { value := 1/100000, ci_lower := 1/100000, ci_upper := 1/100000,
                     unit := "u", population := "east_asian" },
    allele_freq_east_asian := 0, evidence_level := "A", pubmed_ids := [] }

/-- C5 counterexample knowledge base. -/
def kb_tiny : GeneNutrientKnowledgeBase :=
  { pairs := [("V10t", pair_tiny)], recommendations := [] }

/-- C5 (counterexample): with β = 0.00001 > 0 and p = 0, risk-allele
counts 0 and 1 both produce the returned (rounded) score 0.0 — the
returned z-score does not strictly increase. -/
theorem single_gene_risk_monotonicity_cex :
    0 < pair_tiny.effect_size.value ∧
    profile_cc.get_genotype_by_rsid "rs10" = some gt10_cc ∧
    profile_ct.get_genotype_by_rsid "rs10" = some gt10_ct ∧
    kb_tiny.get_pair_by_rsid "rs10" = some pair_tiny ∧
    strCount gt10_cc.genotype pair_tiny.risk_allele = 0 ∧
    strCount gt10_ct.genotype pair_tiny.risk_allele = 1 ∧
    scoreOf (calculate_single_gene_risk kb_tiny profile_cc "rs10") = some 0 ∧
    scoreOf (calculate_single_gene_risk kb_tiny profile_ct "rs10") = some 0 := by
  refine ⟨by show (0:ℚ) < 1/100000; norm_num, rfl, rfl, rfl, by decide, by decide, ?_, ?_⟩
  · have e1 : scoreOf (calculate_single_gene_risk kb_tiny profile_cc "rs10")
        = some (round4 (single_gene_z pair_tiny (strCount "CC" "T"))) := rfl
    rw [e1, single_gene_z_freq_zero pair_tiny rfl]
    have hz : ((pair_tiny.effect_size.value : ℚ) : ℝ) * ((strCount "CC" "T" : ℕ) : ℝ) = 0 := by
      rw [show strCount "CC" "T" = 0 from rfl]
      norm_num
    rw [hz, round4_eq_of_bounds 0 0 (by norm_num) (by norm_num)]
    norm_num
  · have e2 : scoreOf (calculate_single_gene_risk kb_tiny profile_ct "rs10")
        = some (round4 (single_gene_z pair_tiny (strCount "CT" "T"))) := rfl
    rw [e2, single_gene_z_freq_zero pair_tiny rfl]
    have hz : ((pair_tiny.effect_size.value : ℚ) : ℝ) * ((strCount "CT" "T" : ℕ) : ℝ)
        = ((1/100000 : ℚ) : ℝ) := by
      rw [show strCount "CT" "T" = 1 from rfl]
      show ((1/100000 : ℚ) : ℝ) * ((1:ℕ) : ℝ) = ((1/100000 : ℚ) : ℝ)
      norm_num
    rw [hz, round4_eq_of_bounds (((1/100000 : ℚ) : ℝ)) 0 (by push_cast; norm_num)
      (by push_cast; norm_num)]
    norm_num

/-- C3 (amended): for a non-APOE trait, an empty collection of
per-variant scores yields no score, and a nonempty one yields the
unweighted arithmetic mean of the available per-variant z-scores,
rounded to 4 decimal digits (not their sum), with confidence "high"
exactly when at least 2 variants contributed, else "medium". -/
theorem polygenic_mean_aggregation
    (kb : GeneNutrientKnowledgeBase) (profile : GeneticProfile)
    (trait : String) (rsids : List String) (collected : List (ℝ × String))
    (ht : trait ≠ "lipid_metabolism")
    (hc : collectVariantScores kb profile rsids = .ok collected) :
    (collected = [] → calculate_polygenic_risk kb profile trait rsids = .ok none) ∧
    (collected ≠ [] →
      ∃ rs, calculate_polygenic_risk kb profile trait rsids = .ok (some rs) ∧
        rs.score = round4 ((collected.map Prod.fst).sum /
          ((collected.map Prod.fst).length : ℝ)) ∧
        rs.contributing_variants = collected.map Prod.snd ∧
        rs.confidence = (if 2 ≤ (collected.map Prod.snd).length then "high" else "medium")) := by
  constructor
  · intro h
    subst h
    rw [calculate_polygenic_risk, if_neg ht, hc]
  · intro h
    rcases collected with _ | ⟨c, cs⟩
    · exact absurd rfl h
    · refine ⟨polygenic_combined trait (c :: cs), ?_, rfl, rfl, rfl⟩
      rw [calculate_polygenic_risk, if_neg ht, hc]

/-- Witness for the C3 theorem: a profile without obesity variants
collects no per-variant scores and the obesity trait gets no score. -/
theorem polygenic_mean_aggregation_witness :
    ("obesity" ≠ "lipid_metabolism" ∧
      collectVariantScores kb_mthfr profile_tttt ["rs9939609"] = .ok []) ∧
    ((([] : List (ℝ × String)) = [] →
        calculate_polygenic_risk kb_mthfr profile_tttt "obesity" ["rs9939609"] = .ok none) ∧
      (([] : List (ℝ × String)) ≠ [] →
        ∃ rs, calculate_polygenic_risk kb_mthfr profile_tttt "obesity" ["rs9939609"]
            = .ok (some rs) ∧
          rs.score = round4 ((([] : List (ℝ × String)).map Prod.fst).sum /
            ((([] : List (ℝ × String)).map Prod.fst).length : ℝ)) ∧
          rs.contributing_variants = ([] : List (ℝ × String)).map Prod.snd ∧
          rs.confidence =
            (if 2 ≤ (([] : List (ℝ × String)).map Prod.snd).length then "high"
             else "medium"))) :=
  ⟨⟨by decide, rfl⟩,
    polygenic_mean_aggregation kb_mthfr profile_tttt "obesity" ["rs9939609"] []
      (by decide) rfl⟩

/-- C3 counterexample pair at rs9939609: effect 0.0001, frequency 0. -/
def pair_fto1 : GeneNutrientPair :=
  { gene := "FTO", variant_rsid := "rs9939609", nutrient := "energy_balance",
    risk_allele := "T", protective_allele := "C",
    effect_size := { value := 1/10000, ci_lower := 1/10000, ci_upper := 1/10000,
                     unit := "u", population := "east_asian" },
    allele_freq_east_asian := 0, evidence_level := "A", pubmed_ids := [] }

/-- C3 counterexample pair at rs17782313: effect 0.0001, frequency 0. -/
def pair_fto2 : GeneNutrientPair :=
  { gene := "MC4R", variant_rsid := "rs17782313", nutrient := "energy_balance",
    risk_allele := "T", protective_allele := "C",
    effect_size := { value := 1/10000, ci_lower := 1/10000, ci_upper := 1/10000,
                     unit := "u", population := "east_asian" },
    allele_freq_east_asian := 0, evidence_level := "A", pubmed_ids := [] }

/-- C3 counterexample pair at rs12970134: effect 0.0002, frequency 0. -/
def pair_fto3 : GeneNutrientPair :=
  { gene := "MC4R", variant_rsid := "rs12970134", nutrient := "energy_balance",
    risk_allele := "T", protective_allele := "C",
    effect_size := { value := 2/10000, ci_lower := 2/10000, ci_upper := 2/10000,
                     unit := "u", population := "east_asian" },
    allele_freq_east_asian := 0, evidence_level := "A", pubmed_ids := [] }

/-- C3 counterexample knowledge base for the obesity trait. -/
def kb_poly : GeneNutrientKnowledgeBase :=
  { pairs := [("FTO_A", pair_fto1), ("MC4R_A", pair_fto2), ("MC4R_B", pair_fto3)],
    recommendations := [] }

/-- C3 counterexample profile: heterozygous CT at all three obesity
variants. -/
def profile_poly : GeneticProfile :=
  { individual_id := "cex3",
    genotypes :=
      [{ rsid := "rs9939609", chromosome := "16", position := 53786615,
         reference_allele := "C", alternate_allele := "T",
         genotype := "CT", zygosity := .heterozygous, quality_score := none },
       { rsid := "rs17782313", chromosome := "18", position := 60183864,
         reference_allele := "C", alternate_allele := "T",
         genotype := "CT", zygosity := .heterozygous, quality_score := none },
       { rsid := "rs12970134", chromosome := "18", position := 60217517,
         reference_allele := "C", alternate_allele := "T",
         genotype := "CT", zygosity := .heterozygous, quality_score := none }],
    population := "han_chinese", data_source := "WGS", collection_date := none }

/-- The per-variant score of each counterexample variant is its rounded
effect size (frequency 0 gives divisor 1 and one risk allele). -/
theorem cex3_variant_score (rsid : String) (pair : GeneNutrientPair)
    (hp0 : pair.allele_freq_east_asian = 0)
    (hct : strCount "CT" pair.risk_allele = 1) :
    (single_gene_score rsid pair (strCount "CT" pair.risk_allele)).score
      = round4 ((pair.effect_size.value : ℚ) : ℝ) := by
  rw [single_gene_score_score, single_gene_z_freq_zero pair hp0, hct]
  norm_num

/-- C3 (counterexample): with per-variant z-scores 0.0001, 0.0001 and
0.0002, the mean is 1/7500 = 0.000133…, but the returned combined score
is the rounded 0.0001 — not equal to the mean. -/
theorem polygenic_mean_aggregation_cex :
    collectVariantScores kb_poly profile_poly ["rs9939609", "rs17782313", "rs12970134"]
      = .ok [((((1:ℚ)/10000 : ℚ) : ℝ), "rs9939609"), ((((1:ℚ)/10000 : ℚ) : ℝ), "rs17782313"),
             ((((2:ℚ)/10000 : ℚ) : ℝ), "rs12970134")] ∧
    scoreOf (calculate_polygenic_risk kb_poly profile_poly "obesity"
        ["rs9939609", "rs17782313", "rs12970134"]) = some ((1:ℝ)/10000) ∧
    ((((1:ℚ)/10000 : ℚ) : ℝ) + (((1:ℚ)/10000 : ℚ) : ℝ) + (((2:ℚ)/10000 : ℚ) : ℝ)) / 3
      ≠ ((1:ℝ)/10000) := by
  have hs1 : (single_gene_score "rs9939609" pair_fto1 (strCount "CT" "T")).score
      = ((((1:ℚ)/10000 : ℚ)) : ℝ) := by
    rw [show (single_gene_score "rs9939609" pair_fto1 (strCount "CT" "T")).score
        = (single_gene_score "rs9939609" pair_fto1 (strCount "CT" pair_fto1.risk_allele)).score
        from rfl,
      cex3_variant_score "rs9939609" pair_fto1 rfl rfl,
      show pair_fto1.effect_size.value = (1:ℚ)/10000 from rfl,
      round4_eq_of_bounds ((((1:ℚ)/10000 : ℚ) : ℝ)) 1 (by push_cast; norm_num)
        (by push_cast; norm_num)]
    push_cast
    norm_num
  have hs2 : (single_gene_score "rs17782313" pair_fto2 (strCount "CT" "T")).score
      = ((((1:ℚ)/10000 : ℚ)) : ℝ) := by
    rw [show (single_gene_score "rs17782313" pair_fto2 (strCount "CT" "T")).score
        = (single_gene_score "rs17782313" pair_fto2 (strCount "CT" pair_fto2.risk_allele)).score
        from rfl,
      cex3_variant_score "rs17782313" pair_fto2 rfl rfl,
      show pair_fto2.effect_size.value = (1:ℚ)/10000 from rfl,
      round4_eq_of_bounds ((((1:ℚ)/10000 : ℚ) : ℝ)) 1 (by push_cast; norm_num)
        (by push_cast; norm_num)]
    push_cast
    norm_num
  have hs3 : (single_gene_score "rs12970134" pair_fto3 (strCount "CT" "T")).score
      = ((((2:ℚ)/10000 : ℚ)) : ℝ) := by
    rw [show (single_gene_score "rs12970134" pair_fto3 (strCount "CT" "T")).score
        = (single_gene_score "rs12970134" pair_fto3 (strCount "CT" pair_fto3.risk_allele)).score
        from rfl,
      cex3_variant_score "rs12970134" pair_fto3 rfl rfl,
      show pair_fto3.effect_size.value = (2:ℚ)/10000 from rfl,
      round4_eq_of_bounds ((((2:ℚ)/10000 : ℚ) : ℝ)) 2 (by push_cast; norm_num)
        (by push_cast; norm_num)]
    push_cast
    norm_num
  have hcol : collectVariantScores kb_poly profile_poly
      ["rs9939609", "rs17782313", "rs12970134"]
      = .ok [((single_gene_score "rs9939609" pair_fto1 (strCount "CT" "T")).score, "rs9939609"),
             ((single_gene_score "rs17782313" pair_fto2 (strCount "CT" "T")).score, "rs17782313"),
             ((single_gene_score "rs12970134" pair_fto3 (strCount "CT" "T")).score, "rs12970134")] :=
    rfl
  have hcol2 : collectVariantScores kb_poly profile_poly
      ["rs9939609", "rs17782313", "rs12970134"]
      = .ok [((((1:ℚ)/10000 : ℚ) : ℝ), "rs9939609"), ((((1:ℚ)/10000 : ℚ) : ℝ), "rs17782313"),
             ((((2:ℚ)/10000 : ℚ) : ℝ), "rs12970134")] := by
    rw [hcol, hs1, hs2, hs3]
  refine ⟨hcol2, ?_, ?_⟩
  · have hpoly : calculate_polygenic_risk kb_poly profile_poly "obesity"
        ["rs9939609", "rs17782313", "rs12970134"]
        = .ok (some (polygenic_combined "obesity"
            [((((1:ℚ)/10000 : ℚ) : ℝ), "rs9939609"), ((((1:ℚ)/10000 : ℚ) : ℝ), "rs17782313"),
             ((((2:ℚ)/10000 : ℚ) : ℝ), "rs12970134")])) := by
      rw [calculate_polygenic_risk, if_neg (by decide), hcol2]
    rw [show scoreOf (calculate_polygenic_risk kb_poly profile_poly "obesity"
        ["rs9939609", "rs17782313", "rs12970134"])
        = some ((polygenic_combined "obesity"
            [((((1:ℚ)/10000 : ℚ) : ℝ), "rs9939609"), ((((1:ℚ)/10000 : ℚ) : ℝ), "rs17782313"),
             ((((2:ℚ)/10000 : ℚ) : ℝ), "rs12970134")]).score) from by rw [hpoly]; rfl]
    rw [polygenic_combined_score]
    have hmean : (([((((1:ℚ)/10000 : ℚ) : ℝ), "rs9939609"), ((((1:ℚ)/10000 : ℚ) : ℝ), "rs17782313"),
        ((((2:ℚ)/10000 : ℚ) : ℝ), "rs12970134")].map Prod.fst).sum /
        (([((((1:ℚ)/10000 : ℚ) : ℝ), "rs9939609"), ((((1:ℚ)/10000 : ℚ) : ℝ), "rs17782313"),
        ((((2:ℚ)/10000 : ℚ) : ℝ), "rs12970134")].map Prod.fst).length : ℝ)) = (1:ℝ)/7500 := by
      simp only [List.map_cons, List.map_nil, List.sum_cons, List.sum_nil,
        List.length_cons, List.length_nil]
      push_cast
      norm_num
    rw [hmean, round4_eq_of_bounds ((1:ℝ)/7500) 1 (by norm_num) (by norm_num)]
    norm_num
  · push_cast
    norm_num

/-- C7: when the risk category selects an existing rule tier and the
baseline resolves, the personalized target of the recommendation equals
baseline × tier multiplier rounded to 1 decimal. -/
theorem recommendation_target_scaling
    (dri : DriConfig) (rules : RecommendationRules) (score : RiskScore)
    (age : ℤ) (sex : String) (tier : RuleTier) (base : ℚ)
    (ht : rules.tiers.lookup (score.risk_category ++ "_risk") = some tier)
    (hb : get_dri dri (rules.nutrient.getD score.trait) age sex = some base) :
    ∃ rec, apply_rules dri rules score age sex = some rec ∧
      rec.current_dri = base ∧
      rec.recommended_intake = round1q (base * tier.dri_multiplier.getD 1) := by
  have happ : apply_rules dri rules score age sex
      = some (mk_recommendation dri rules score tier base) := by
    rw [apply_rules, ht, hb]
  exact ⟨mk_recommendation dri rules score tier base, happ, rfl, rfl⟩

/-- C7 witness DRI baseline table: folate 400 for 18–49 adults. -/
def dri_demo : DriConfig :=
  [("folate",
    { values := [("adult_female_18_49", 400), ("adult_male_18_49", 400)],
      unit := some "ug" })]

/-- C7 witness rule tier: high risk, multiplier 1.75. -/
def tier_high : RuleTier :=
  { dri_multiplier := some (7/4), description := some "High risk genotype.",
    supplementation := some "Consider methylfolate.",
    food_sources := some ["dark leafy greens"], priority := some "high" }

/-- C7 witness rule set for MTHFR. -/
def rules_mthfr : RecommendationRules :=
  { nutrient := some "folate", tiers := [("high_risk", tier_high)] }

/-- C7 witness risk score with category high. -/
noncomputable def score_high : RiskScore :=
  { trait := "folate_metabolism", score := 1, percentile := 90,
    risk_category := "high", contributing_variants := ["rs1801133"],
    confidence := "high" }

/-- Witness for the C7 theorem: baseline 400, high_risk multiplier
1.75, target 700.0. -/
theorem recommendation_target_scaling_witness :
    (rules_mthfr.tiers.lookup (score_high.risk_category ++ "_risk") = some tier_high ∧
      get_dri dri_demo (rules_mthfr.nutrient.getD score_high.trait) 30 "female"
        = some 400) ∧
    (∃ rec, apply_rules dri_demo rules_mthfr score_high 30 "female" = some rec ∧
      rec.current_dri = 400 ∧
      rec.recommended_intake = round1q (400 * tier_high.dri_multiplier.getD 1)) ∧
    round1q (400 * tier_high.dri_multiplier.getD 1) = 700 :=
  ⟨⟨rfl, rfl⟩,
    recommendation_target_scaling dri_demo rules_mthfr score_high 30 "female"
      tier_high 400 rfl rfl,
    by
      show round1q (400 * ((7:ℚ)/4)) = 700
      rw [round1q, show ((400:ℚ) * (7/4) * 10) = ((7000:ℤ):ℚ) from by norm_num,
        round_intCast]
      norm_num⟩

/-! ### Error classification: the scoring path only raises
`RiskScoringError` -/

/-- The only exception `calculate_single_gene_risk` raises is the
risk-scoring one. -/
theorem single_gene_errors_are_risk (kb : GeneNutrientKnowledgeBase)
    (profile : GeneticProfile) (rsid : String) (e : PipelineError)
    (h : calculate_single_gene_risk kb profile rsid = .error e) :
    ∃ m, e = .riskScoring m := by
  cases hg : profile.get_genotype_by_rsid rsid with
  | none =>
    rw [calculate_single_gene_risk, hg] at h
    exact absurd h (by simp)
  | some g =>
    cases hp : kb.get_pair_by_rsid rsid with
    | none =>
      rw [calculate_single_gene_risk, hg, hp] at h
      refine ⟨"rsID " ++ rsid ++ " not in knowledge base", ?_⟩
      have := h.symm
      injection this
    | some pair =>
      rw [calculate_single_gene_risk_of_lookups kb profile rsid g pair hg hp] at h
      exact absurd h (by simp)

/-- The only exception the per-variant collection loop raises is the
risk-scoring one. -/
theorem collectVariantScores_errors_are_risk (kb : GeneNutrientKnowledgeBase)
    (profile : GeneticProfile) :
    ∀ (rsids : List String) (e : PipelineError),
      collectVariantScores kb profile rsids = .error e → ∃ m, e = .riskScoring m := by
  intro rsids
  induction rsids with
  | nil =>
    intro e h
    rw [collectVariantScores] at h
    exact absurd h (by simp)
  | cons r rest ih =>
    intro e h
    rw [collectVariantScores] at h
    cases hc : calculate_single_gene_risk kb profile r with
    | error e1 =>
      rw [hc] at h
      have he : e1 = e := by injection h
      exact he ▸ single_gene_errors_are_risk kb profile r e1 hc
    | ok o =>
      rw [hc] at h
      cases o with
      | none => exact ih e h
      | some result =>
        cases hrest : collectVariantScores kb profile rest with
        | error e2 =>
          rw [hrest] at h
          have he : e2 = e := by injection h
          exact he ▸ ih e2 hrest
        | ok tail =>
          rw [hrest] at h
          exact absurd h (by simp)

/-- The only exception `calculate_polygenic_risk` raises is the
risk-scoring one. -/
theorem polygenic_errors_are_risk (kb : GeneNutrientKnowledgeBase)
    (profile : GeneticProfile) (trait : String) (rsids : List String) (e : PipelineError)
    (h : calculate_polygenic_risk kb profile trait rsids = .error e) :
    ∃ m, e = .riskScoring m := by
  rw [calculate_polygenic_risk] at h
  by_cases ht : trait = "lipid_metabolism"
  · rw [if_pos ht] at h
    exact absurd h (by simp)
  · rw [if_neg ht] at h
    cases hc : collectVariantScores kb profile rsids with
    | error e1 =>
      rw [hc] at h
      have he : e1 = e := by injection h
      exact he ▸ collectVariantScores_errors_are_risk kb profile rsids e1 hc
    | ok l =>
      rw [hc] at h
      cases l with
      | nil => exact absurd h (by simp)
      | cons c cs => exact absurd h (by simp)

/-- The only exception the trait-score collection loop raises is the
risk-scoring one. -/
theorem collectScores_errors_are_risk (kb : GeneNutrientKnowledgeBase)
    (profile : GeneticProfile) :
    ∀ (traits : List String) (e : PipelineError),
      collectScores kb profile traits = .error e → ∃ m, e = .riskScoring m := by
  intro traits
  induction traits with
  | nil =>
    intro e h
    rw [collectScores] at h
    exact absurd h (by simp)
  | cons t rest ih =>
    intro e h
    rw [collectScores] at h
    cases hc : calculate_polygenic_risk kb profile t
        ((TRAIT_VARIANT_MAP.lookup t).getD []) with
    | error e1 =>
      rw [hc] at h
      have he : e1 = e := by injection h
      exact he ▸ polygenic_errors_are_risk kb profile t _ e1 hc
    | ok o =>
      rw [hc] at h
      cases o with
      | none => exact ih e h
      | some result =>
        cases hrest : collectScores kb profile rest with
        | error e2 =>
          rw [hrest] at h
          have he : e2 = e := by injection h
          exact he ▸ ih e2 hrest
        | ok tail =>
          rw [hrest] at h
          exact absurd h (by simp)

/-- C9: `generate_report` raises the recommendation-input error exactly
when sex is not one of the two recognized values or the age lies
outside [0, 150]; it produces no report for such inputs (the error and
the report are the two exclusive outcomes of the call). -/
theorem generate_report_input_validation (kb : GeneNutrientKnowledgeBase)
    (dri : DriConfig) (now : String) (profile : GeneticProfile)
    (traits : Option (List String)) (age : ℤ) (sex : String) :
    isRecError (generate_report kb dri now profile age sex traits) = true ↔
      ((sex ≠ "male" ∧ sex ≠ "female") ∨ age < 0 ∨ 150 < age) := by
  rw [generate_report]
  by_cases h1 : sex ≠ "male" ∧ sex ≠ "female"
  · rw [if_pos h1]
    simp only [isRecError]
    tauto
  · rw [if_neg h1]
    by_cases h2 : age < 0 ∨ age > 150
    · rw [if_pos h2]
      simp only [isRecError]
      tauto
    · rw [if_neg h2]
      cases hs : collectScores kb profile (resolve_traits traits) with
      | error e =>
        obtain ⟨m, rfl⟩ := collectScores_errors_are_risk kb profile
          (resolve_traits traits) e hs
        simp only [isRecError, Bool.false_eq_true, false_iff]
        tauto
      | ok scores =>
        simp only [isRecError, Bool.false_eq_true, false_iff]
        tauto

/-- C10: every age in [0, 18) with a valid sex is accepted by
`generate_report` (no recommendation-input error), resolves to the
"18_49" age group, and receives the same baseline as an 18–49 adult
(here: a 30-year-old) of the same sex. -/
theorem minors_use_adult_baseline (kb : GeneNutrientKnowledgeBase)
    (dri : DriConfig) (now : String) (profile : GeneticProfile)
    (traits : Option (List String)) (nutrient : String) (age : ℤ) (sex : String)
    (h0 : 0 ≤ age) (h18 : age < 18) (hsex : sex = "male" ∨ sex = "female") :
    age_to_group age = "18_49" ∧
    isRecError (generate_report kb dri now profile age sex traits) = false ∧
    get_dri dri nutrient age sex = get_dri dri nutrient 30 sex := by
  have hg : age_to_group age = "18_49" := by
    rw [age_to_group, if_pos (by omega : age < 50)]
  have hdri : get_dri dri nutrient age sex = get_dri dri nutrient 30 sex := by
    rw [get_dri, get_dri, hg, show age_to_group 30 = "18_49" from by decide]
  refine ⟨hg, ?_, hdri⟩
  rw [generate_report]
  have h1 : ¬(sex ≠ "male" ∧ sex ≠ "female") := by
    rcases hsex with h | h <;> simp [h]
  rw [if_neg h1, if_neg (by omega : ¬(age < 0 ∨ age > 150))]
  cases hs : collectScores kb profile (resolve_traits traits) with
  | error e =>
    obtain ⟨m, rfl⟩ := collectScores_errors_are_risk kb profile
      (resolve_traits traits) e hs
    rfl
  | ok scores => rfl

/-- Witness for the C10 theorem: a ten-year-old girl. -/
theorem minors_use_adult_baseline_witness :
    ((0:ℤ) ≤ 10 ∧ (10:ℤ) < 18 ∧ ("female" = "male" ∨ "female" = "female")) ∧
    (age_to_group 10 = "18_49" ∧
      isRecError (generate_report kb_mthfr dri_demo "2026-01-01" profile_cc 10 "female"
        none) = false ∧
      get_dri dri_demo "folate" 10 "female" = get_dri dri_demo "folate" 30 "female") :=
  ⟨⟨by norm_num, by norm_num, Or.inr rfl⟩,
    minors_use_adult_baseline kb_mthfr dri_demo "2026-01-01" profile_cc none "folate"
      10 "female" (by norm_num) (by norm_num) (Or.inr rfl)⟩

/-! ### Stable descending sort lemmas -/

/-- Equal priorities give equal sort weights. -/
theorem recWeight_eq_of_priority {a b : DietaryRecommendation}
    (h : a.priority = b.priority) : recWeight a = recWeight b := by
  rw [recWeight, recWeight, h]

/-- Membership in a stable insertion. -/
theorem mem_insertRecDesc {b r : DietaryRecommendation} :
    ∀ {l : List DietaryRecommendation}, b ∈ insertRecDesc r l ↔ b = r ∨ b ∈ l := by
  intro l
  induction l with
  | nil => simp [insertRecDesc]
  | cons x xs ih =>
    rw [insertRecDesc]
    by_cases h : recWeight x ≤ recWeight r
    · rw [if_pos h]
      simp
    · rw [if_neg h]
      simp only [List.mem_cons, ih]
      tauto

/-- Stable insertion preserves weight-descending order. -/
theorem insertRecDesc_pairwise (r : DietaryRecommendation) :
    ∀ (l : List DietaryRecommendation),
      l.Pairwise (fun a b => recWeight b ≤ recWeight a) →
      (insertRecDesc r l).Pairwise (fun a b => recWeight b ≤ recWeight a) := by
  intro l
  induction l with
  | nil =>
    intro _
    simp [insertRecDesc]
  | cons x xs ih =>
    intro h
    rw [List.pairwise_cons] at h
    obtain ⟨hx, hxs⟩ := h
    rw [insertRecDesc]
    by_cases hw : recWeight x ≤ recWeight r
    · rw [if_pos hw]
      rw [List.pairwise_cons]
      refine ⟨?_, ?_⟩
      · intro b hb
        rcases List.mem_cons.mp hb with hbx | hbxs
        · exact hbx ▸ hw
        · exact le_trans (hx b hbxs) hw
      · rw [List.pairwise_cons]
        exact ⟨hx, hxs⟩
    · rw [if_neg hw]
      rw [List.pairwise_cons]
      refine ⟨?_, ih hxs⟩
      intro b hb
      rcases mem_insertRecDesc.mp hb with hbr | hbxs
      · exact hbr ▸ le_of_not_le hw
      · exact hx b hbxs

/-- C8 sortedness: the stable descending sort is weight-descending. -/
theorem sortRecsDesc_pairwise :
    ∀ (l : List DietaryRecommendation),
      (sortRecsDesc l).Pairwise (fun a b => recWeight b ≤ recWeight a) := by
  intro l
  induction l with
  | nil => simp [sortRecsDesc]
  | cons x xs ih => exact insertRecDesc_pairwise x (sortRecsDesc xs) ih

/-- Filtering by a fixed priority commutes with stable insertion: the
inserted element lands in front of the equal-priority block (an element
of the same priority later in the list has the same weight, so the
insertion never passes it). -/
theorem insertRecDesc_filter (r : DietaryRecommendation) (p : String) :
    ∀ (l : List DietaryRecommendation),
      (insertRecDesc r l).filter (fun x => x.priority == p)
        = (if r.priority == p then
            r :: l.filter (fun x => x.priority == p)
          else l.filter (fun x => x.priority == p)) := by
  intro l
  induction l with
  | nil =>
    rw [insertRecDesc]
    by_cases hr : (r.priority == p) = true
    · simp [List.filter_cons, hr]
    · simp [List.filter_cons, hr]
  | cons x xs ih =>
    rw [insertRecDesc]
    by_cases hw : recWeight x ≤ recWeight r
    · rw [if_pos hw]
      by_cases hr : (r.priority == p) = true
      · simp [List.filter_cons, hr]
      · simp [List.filter_cons, hr]
    · rw [if_neg hw]
      by_cases hr : (r.priority == p) = true
      · by_cases hx : (x.priority == p) = true
        · exfalso
          have hxp : x.priority = p := by simpa using hx
          have hrp : r.priority = p := by simpa using hr
          exact hw (le_of_eq (recWeight_eq_of_priority (hxp.trans hrp.symm)))
        · simp [List.filter_cons, hx, hr, ih]
      · by_cases hx : (x.priority == p) = true
        · simp [List.filter_cons, hx, hr, ih]
        · simp [List.filter_cons, hx, hr, ih]

/-- C8 stability: filtering any fixed priority out of the sorted list
gives the same sequence as filtering the unsorted list. -/
theorem sortRecsDesc_filter (p : String) :
    ∀ (l : List DietaryRecommendation),
      (sortRecsDesc l).filter (fun x => x.priority == p)
        = l.filter (fun x => x.priority == p) := by
  intro l
  induction l with
  | nil => rfl
  | cons x xs ih =>
    rw [sortRecsDesc, insertRecDesc_filter]
    by_cases hx : (x.priority == p) = true
    · simp [List.filter_cons, hx, ih]
    · simp [List.filter_cons, hx, ih]

/-- C8: the recommendations of a generated report are sorted descending
by priority weight (critical 4 > high 3 > medium 2 > low 1), and within
each priority the original order produced by `_build_recommendations`
is kept (stable ties), for every input profile and risk-score set. -/
theorem report_recommendations_sorted
    (kb : GeneNutrientKnowledgeBase) (dri : DriConfig) (now : String)
    (profile : GeneticProfile) (traits : Option (List String))
    (age : ℤ) (sex : String) (scores : List RiskScore)
    (hsex : sex = "male" ∨ sex = "female") (h0 : 0 ≤ age) (h150 : age ≤ 150)
    (hs : collectScores kb profile (resolve_traits traits) = .ok scores) :
    (recsOf (generate_report kb dri now profile age sex traits)).Pairwise
      (fun a b => recWeight b ≤ recWeight a) ∧
    ∀ p, (recsOf (generate_report kb dri now profile age sex traits)).filter
        (fun r => r.priority == p)
      = (build_recommendations kb dri scores age sex).filter
          (fun r => r.priority == p) := by
  have h1 : ¬(sex ≠ "male" ∧ sex ≠ "female") := by
    rcases hsex with h | h <;> simp [h]
  have hrep : recsOf (generate_report kb dri now profile age sex traits)
      = sortRecsDesc (build_recommendations kb dri scores age sex) := by
    rw [generate_report, if_neg h1, if_neg (by omega : ¬(age < 0 ∨ age > 150)), hs]
    rfl
  rw [hrep]
  exact ⟨sortRecsDesc_pairwise _, fun p => sortRecsDesc_filter p _⟩

/-- Witness for the C8 theorem at a concrete profile without tracked
variants (empty score and recommendation lists). -/
theorem report_recommendations_sorted_witness :
    (("male" = "male" ∨ ("male" : String) = "female") ∧ (0:ℤ) ≤ 30 ∧ (30:ℤ) ≤ 150 ∧
      collectScores kb_mthfr profile_cc (resolve_traits none) = .ok []) ∧
    ((recsOf (generate_report kb_mthfr dri_demo "2026-01-01" profile_cc 30 "male"
        none)).Pairwise (fun a b => recWeight b ≤ recWeight a) ∧
      ∀ p, (recsOf (generate_report kb_mthfr dri_demo "2026-01-01" profile_cc 30 "male"
          none)).filter (fun r => r.priority == p)
        = (build_recommendations kb_mthfr dri_demo [] 30 "male").filter
            (fun r => r.priority == p)) :=
  ⟨⟨Or.inl rfl, by norm_num, by norm_num, rfl⟩,
    report_recommendations_sorted kb_mthfr dri_demo "2026-01-01" profile_cc none
      30 "male" [] (Or.inl rfl) (by norm_num) (by norm_num) rfl⟩

end NutriGene
